import Mathlib

/-!
# ConnectionWatcher: the reload handler of `pkg/connectionwatcher/connection_watcher.go`

A shallow embedding of `ConnectionWatcher.handleFileWatcherEvent` with explicit state passing.

* The receiver `w` and the two process-wide stores that the handler writes
  (`steampipeconfig.GlobalConfig`, the viper defaults) are threaded through as values.
* Every function of another package that the handler calls is a field of `Collaborators`:
  the value it hands back on this invocation, or the panic it raises.  The handler calls
  each of them at most once per invocation, so one answer per collaborator describes an
  invocation completely; the theorems quantify over all answers.
* Every call and every log line is appended to a trace, in program order, so that
  "is called", "is called once" and "is called before" are statements about a list.
* `defer` and `recover` are modelled by their Go semantics: the deferred `client.Close`
  runs when the body is left (normally or by a panic), a panic raised by a deferred call
  replaces the one in flight, and the deferred `recover` closure runs last.  That closure
  calls `helpers.ToError(r).Error()` on the recovered value before it logs; a value whose
  `Error()` faults makes the closure itself panic, and that panic leaves the handler.

The counter `count` is a Go `int`, here the 64-bit two's complement integer of the platforms
the program is built for: `w.count++` wraps from `2^63 - 1` to `-2^63`.  The body of the
handler is sequential code; overlapping invocations are not part of the model.
-/

namespace connectionwatcher

/-! ## Data model -/

/-- An `error` value, identified with its `Error()` text. -/
abbrev Err := String

/-- The value `r` carried by a panic, seen through `helpers.ToError(r).Error()`, the one thing
the handler does with it: the call returns a text, or it panics itself with another value
(an `error` whose `Error` method faults). -/
inductive PanicValue where
  | describable (text : String)
  | faulting (inner : PanicValue)
  deriving DecidableEq, Repr

/-- A Go `int` on a 64-bit platform: an integer of the two's complement range. -/
structure GoInt where
  val : Int
  lo : -9223372036854775808 ≤ val
  hi : val < 9223372036854775808
  deriving DecidableEq, Repr

/-- Machine arithmetic: reduce an integer modulo `2^64` into the range of `GoInt`. -/
def GoInt.wrap (x : Int) : GoInt :=
  { val := (x + 9223372036854775808) % 18446744073709551616 - 9223372036854775808
    lo := by omega
    hi := by omega }

/-- Addition of Go `int`s wraps around. -/
instance : Add GoInt :=
  ⟨fun a b => GoInt.wrap (a.val + b.val)⟩

/-- Numerals of type Go `int`. -/
instance (n : Nat) : OfNat GoInt n :=
  ⟨GoInt.wrap n⟩

/-- One `fsnotify.Event` (name of the file and the operation bits). -/
structure FsEvent where
  Name : String
  Op : Nat
  deriving DecidableEq, Repr

/-- Modelled from the spec: the type `modconfig.Connection` is declared outside this file.
A connection of the snapshot: its unique name and its connection-configuration value. -/
structure Connection where
  Name : String
  Config : String
  deriving DecidableEq, Repr

/-- Modelled from the spec: `sdkproto.ConnectionConfig`, the connection-configuration value the
listener expects. -/
structure ConnectionConfig where
  Connection : String
  Config : String
  deriving DecidableEq, Repr

/-- The Go type `map[string]*sdkproto.ConnectionConfig`, as an association list. -/
abbrev ConnectionConfigMap := List (String × ConnectionConfig)

/-- Modelled from the spec: `steampipeconfig.SteampipeConfig`, the configuration snapshot; the
handler reads its connection set and hands the snapshot itself to the global slot. -/
structure SteampipeConfig where
  Connections : List Connection
  deriving DecidableEq, Repr

/-- The key/value settings returned by `config.ConfigMap()`. -/
abbrev ConfigKV := List (String × String)

/-- The process-wide defaults store behind `cmdconfig.SetViperDefaults`. -/
abbrev ViperDefaults := List (String × String)

/-- A non-nil `*db_local.LocalDbClient`, identified by a handle number. -/
structure LocalDbClient where
  id : Nat
  deriving DecidableEq, Repr

/-- The result of `RefreshConnectionAndSearchPaths`: an optional error and the warnings. -/
structure RefreshResult where
  Error : Option Err
  Warnings : List String
  deriving DecidableEq, Repr

/-- The type `ConnectionWatcher`.  The callback fields are collaborators (see `Collaborators`);
the only data field the handler reads or writes is `count`. -/
structure ConnectionWatcher where
  count : GoInt
  deriving DecidableEq, Repr

/-- The process-wide state written by the handler: `steampipeconfig.GlobalConfig` (a pointer,
`none` is nil) and the viper defaults store. -/
structure Globals where
  GlobalConfig : Option SteampipeConfig
  viperDefaults : ViperDefaults
  deriving DecidableEq, Repr

/-- How a call of a collaborator ends: it returns a value or it panics. -/
inductive Call (α : Type) where
  | returns (a : α)
  | panics (r : PanicValue)
  deriving DecidableEq, Repr

/-- How the handler body, or the handler, is left. -/
inductive Exit where
  | returned
  | panicked (r : PanicValue)
  deriving DecidableEq, Repr

/-- The answers of the collaborators during one invocation of the handler.
Pointers are `Option`s (`none` is nil); a Go result pair `(x, err)` is a pair. -/
structure Collaborators where
  /-- The call `steampipeconfig.LoadConnectionConfig()`. -/
  LoadConnectionConfig : Call (Option SteampipeConfig × Option Err)
  /-- The call `db_local.NewLocalClient(ctx, constants.InvokerConnectionWatcher)`. -/
  NewLocalClient : Call (Option LocalDbClient × Option Err)
  /-- The call `w.onConnectionConfigChanged(configMap)`, the listener. -/
  onConnectionConfigChanged : ConnectionConfigMap → Call Unit
  /-- The call `config.ConfigMap()`. -/
  ConfigMap : SteampipeConfig → Call ConfigKV
  /-- The call `cmdconfig.SetViperDefaults(m)`: the store it leaves, and the panic if it raises one. -/
  SetViperDefaults : ConfigKV → ViperDefaults → ViperDefaults × Option PanicValue
  /-- The call `client.RefreshConnectionAndSearchPaths(ctx)`. -/
  RefreshConnectionAndSearchPaths : Option LocalDbClient → Call RefreshResult
  /-- The call `refreshResult.ShowWarnings()`. -/
  ShowWarnings : RefreshResult → Call Unit
  /-- The call `client.Close(ctx)`. -/
  Close : Option LocalDbClient → Call Unit

/-- What the handler does, in program order. -/
inductive Event where
  | log (line : String)
  | LoadConnectionConfig
  | NewLocalClient
  | onConnectionConfigChanged (configMap : ConnectionConfigMap)
  | setGlobalConfig (config : SteampipeConfig)
  | SetViperDefaults (m : ConfigKV)
  | RefreshConnectionAndSearchPaths (client : Option LocalDbClient)
  | ShowWarnings (r : RefreshResult)
  | Close (client : Option LocalDbClient)
  deriving DecidableEq, Repr

/-- The state threaded through the handler: receiver, globals and the trace so far. -/
structure St where
  w : ConnectionWatcher
  g : Globals
  trace : List Event
  deriving DecidableEq, Repr

/-- Append one event to the trace. -/
def St.emit (s : St) (ev : Event) : St :=
  { s with trace := s.trace ++ [ev] }

/-- The result of one invocation of the handler. -/
structure Outcome where
  w : ConnectionWatcher
  g : Globals
  trace : List Event
  exit : Exit
  deriving DecidableEq, Repr

/-! ## The translation `NewConnectionConfigMap` -/

/-- The Go map assignment `m[k] = v`: overwrite the entry of `k`, or add one. -/
def mapSet : ConnectionConfigMap → String → ConnectionConfig → ConnectionConfigMap
  | [], k, v => [(k, v)]
  | (k0, v0) :: rest, k, v =>
    if k0 = k then (k, v) :: rest else (k0, v0) :: mapSet rest k v

/-- The keys of a map. -/
def mapKeys (m : ConnectionConfigMap) : List String :=
  m.map Prod.fst

/-- Modelled from the spec: `NewConnectionConfigMap` is declared in another file of the package.
It derives the translated map from the snapshot's connection set: one entry per connection,
keyed by connection name; a later duplicate name overwrites the earlier entry. -/
def NewConnectionConfigMap (connections : List Connection) : ConnectionConfigMap :=
  connections.foldl
    (fun m conn => mapSet m conn.Name { Connection := conn.Name, Config := conn.Config }) []

/-! ## The handler -/

/-- The panic Go raises when a field of a nil pointer is read. -/
def nilDereference : PanicValue :=
  .describable "runtime error: invalid memory address or nil pointer dereference"

/-- Lines 90-117: the body after `defer client.Close(ctx)` has been registered. -/
def afterDefer (c : Collaborators) (config : Option SteampipeConfig)
    (client : Option LocalDbClient) (s : St) : St × Exit :=
  let s := s.emit (.log "[TRACE] loaded updated config")
  let s := s.emit (.log "[TRACE] calling onConnectionConfigChanged")
  match config with
  | none => (s, .panicked nilDereference)
  | some cfg =>
    let configMap := NewConnectionConfigMap cfg.Connections
    let s := s.emit (.onConnectionConfigChanged configMap)
    match c.onConnectionConfigChanged configMap with
    | .panics r => (s, .panicked r)
    | .returns _ =>
      let s := s.emit (.log "[TRACE] calling RefreshConnectionAndSearchPaths")
      let s := { s with g := { s.g with GlobalConfig := some cfg } }
      let s := s.emit (.setGlobalConfig cfg)
      match c.ConfigMap cfg with
      | .panics r => (s, .panicked r)
      | .returns kv =>
        let s := s.emit (.SetViperDefaults kv)
        let res := c.SetViperDefaults kv s.g.viperDefaults
        let s := { s with g := { s.g with viperDefaults := res.1 } }
        match res.2 with
        | some r => (s, .panicked r)
        | none =>
          let s := s.emit (.RefreshConnectionAndSearchPaths client)
          match c.RefreshConnectionAndSearchPaths client with
          | .panics r => (s, .panicked r)
          | .returns refreshResult =>
            match refreshResult.Error with
            | some err => (s.emit (.log ("[WARN] error refreshing connections: " ++ err)), .returned)
            | none =>
              let s := s.emit (.ShowWarnings refreshResult)
              match c.ShowWarnings refreshResult with
              | .panics r => (s, .panicked r)
              | .returns _ => (s, .returned)

/-- Lines 66-118: the body of the handler, with the deferred `client.Close(ctx)` run when the
part after its registration is left. -/
def handlerBody (c : Collaborators) (s : St) : St × Exit :=
  let s := { s with w := { s.w with count := s.w.count + 1 } }
  if s.w.count = (1 : GoInt) then
    (s.emit (.log "[TRACE] handleFileWatcherEvent ignoring first event"), .returned)
  else
    let s := s.emit (.log "[TRACE] ConnectionWatcher handleFileWatcherEvent")
    let s := s.emit .LoadConnectionConfig
    match c.LoadConnectionConfig with
    | .panics r => (s, .panicked r)
    | .returns (_, some err) =>
      (s.emit (.log ("[WARN] error loading updated connection config: " ++ err)), .returned)
    | .returns (config, none) =>
      let s := s.emit (.log "[TRACE] loaded updated config")
      let s := s.emit .NewLocalClient
      match c.NewLocalClient with
      | .panics r => (s, .panicked r)
      | .returns (client, err) =>
        let s := match err with
          | some e =>
            s.emit (.log ("[WARN] error creating client to handle updated connection config: " ++ e))
          | none => s
        let r := afterDefer c config client s
        let s := r.1.emit (.Close client)
        match c.Close client with
        | .panics p => (s, .panicked p)
        | .returns _ => (s, r.2)

/-- The deferred closure of lines 59-63, run when the body is left: the log line it writes and
how the handler is left.  With no panic in flight `recover()` returns nil and nothing happens.
Otherwise the panic is recovered; `helpers.ToError(r).Error()` either returns the text that is
logged, or panics, and then that new panic leaves the handler with nothing logged. -/
def deferredRecover : Exit → List Event × Exit
  | .returned => ([], .returned)
  | .panicked (.describable text) =>
    ([.log ("[WARN] ConnectionWatcher caught a panic: " ++ text)], .returned)
  | .panicked (.faulting inner) => ([], .panicked inner)

/-- The method `(w *ConnectionWatcher) handleFileWatcherEvent(e []fsnotify.Event)`: the body
under the deferred `recover` closure of lines 59-63. -/
def handleFileWatcherEvent (c : Collaborators) (w : ConnectionWatcher) (g : Globals)
    (_e : List FsEvent) : Outcome :=
  let r := handlerBody c { w := w, g := g, trace := [] }
  let d := deferredRecover r.2
  { w := r.1.w, g := r.1.g, trace := r.1.trace ++ d.1, exit := d.2 }

/-- The state of the receiver that `NewConnectionWatcher` returns when `utils.NewWatcher`
succeeds: the struct literal of line 27 leaves `count` at its zero value. -/
def NewConnectionWatcher (newWatcher : Except Err Unit) : Except Err ConnectionWatcher :=
  match newWatcher with
  | .error err => .error err
  | .ok _ => .ok { count := 0 }

/-- Event batches handed to the handler one after another on the same watcher, each with its
own collaborator answers: the outcomes of the invocations, in order.  Every invocation starts
from the state the one before it left, also when a panic left that one. -/
def handleAll (w : ConnectionWatcher) (g : Globals) :
    List (List FsEvent × Collaborators) → List Outcome
  | [] => []
  | (e, c) :: rest =>
    let o := handleFileWatcherEvent c w g e
    o :: handleAll o.w o.g rest

/-! ## Observations on traces -/

/-- The number of calls of the config loader in a trace. -/
def loaderCalls (t : List Event) : Nat :=
  t.count .LoadConnectionConfig

/-- The maps the listener was invoked with, in order. -/
def listenerCalls (t : List Event) : List ConnectionConfigMap :=
  t.filterMap fun ev => match ev with
    | .onConnectionConfigChanged m => some m
    | _ => none

/-- The clients `Close` was called on, in order. -/
def closeCalls (t : List Event) : List (Option LocalDbClient) :=
  t.filterMap fun ev => match ev with
    | .Close cl => some cl
    | _ => none

/-- The clients the refresh was called on, in order. -/
def refreshCalls (t : List Event) : List (Option LocalDbClient) :=
  t.filterMap fun ev => match ev with
    | .RefreshConnectionAndSearchPaths cl => some cl
    | _ => none

/-- The results whose warnings were shown, in order. -/
def shownWarnings (t : List Event) : List RefreshResult :=
  t.filterMap fun ev => match ev with
    | .ShowWarnings r => some r
    | _ => none

/-- The stages of a reload attempt named by the control-flow description. -/
inductive Stage where
  | loadConfig
  | notifyListener
  | updateGlobalSlot
  | updateViperDefaults
  | createClient
  | refresh
  | reportWarnings
  deriving DecidableEq, Repr

/-- The stage an event belongs to; log lines and the release of the client are no stage. -/
def Event.stage : Event → Option Stage
  | .log _ => none
  | .LoadConnectionConfig => some .loadConfig
  | .NewLocalClient => some .createClient
  | .onConnectionConfigChanged _ => some .notifyListener
  | .setGlobalConfig _ => some .updateGlobalSlot
  | .SetViperDefaults _ => some .updateViperDefaults
  | .RefreshConnectionAndSearchPaths _ => some .refresh
  | .ShowWarnings _ => some .reportWarnings
  | .Close _ => none

/-- The stages of a trace, in order. -/
def stages (t : List Event) : List Stage :=
  t.filterMap Event.stage

/-- The calls of a trace: everything but the log lines. -/
def calls (t : List Event) : List Event :=
  t.filter fun ev => match ev with
    | .log _ => false
    | _ => true

/-- The order of the stages as the control-flow description gives it: load config, notify
listener, update global configuration (slot, then viper defaults), create downstream client,
refresh, report warnings. -/
def describedStageOrder : List Stage :=
  [.loadConfig, .notifyListener, .updateGlobalSlot, .updateViperDefaults, .createClient,
    .refresh, .reportWarnings]

/-- The order of the stages in the handler: the downstream client is created right after the
load, before the listener is notified. -/
def handlerStageOrder : List Stage :=
  [.loadConfig, .createClient, .notifyListener, .updateGlobalSlot, .updateViperDefaults,
    .refresh, .reportWarnings]

/-! ## Concrete collaborators used to evaluate the handler -/

/-- A snapshot with two connections. -/
def sampleConfig : SteampipeConfig :=
  { Connections := [{ Name := "aws", Config := "regions=*" }, { Name := "github", Config := "token" }] }

/-- Collaborators that all succeed: the loader returns `sampleConfig`, the client is created. -/
def allSucceed : Collaborators :=
  { LoadConnectionConfig := .returns (some sampleConfig, none)
    NewLocalClient := .returns (some { id := 7 }, none)
    onConnectionConfigChanged := fun _ => .returns ()
    ConfigMap := fun _ => [("cache", "true")] |> .returns
    SetViperDefaults := fun kv store => (kv ++ store, none)
    RefreshConnectionAndSearchPaths := fun _ => .returns { Error := none, Warnings := ["w1"] }
    ShowWarnings := fun _ => .returns ()
    Close := fun _ => .returns () }

/-- As `allSucceed`, but the loader returns an error. -/
def loadFails : Collaborators :=
  { allSucceed with LoadConnectionConfig := .returns (none, some "parse error") }

/-- As `allSucceed`, but the refresh returns an error. -/
def refreshFails : Collaborators :=
  { allSucceed with
    RefreshConnectionAndSearchPaths := fun _ => .returns { Error := some "refresh failed", Warnings := ["w1"] } }

/-- As `allSucceed`, but `NewLocalClient` returns a nil client and an error, and the methods of
the nil client panic. -/
def clientFails : Collaborators :=
  { allSucceed with
    NewLocalClient := .returns (none, some "connection refused")
    RefreshConnectionAndSearchPaths := fun cl =>
      match cl with
      | none => .panics nilDereference
      | some _ => .returns { Error := none, Warnings := [] }
    Close := fun cl =>
      match cl with
      | none => .panics nilDereference
      | some _ => .returns () }

/-- As `allSucceed`, but the listener panics. -/
def listenerPanics : Collaborators :=
  { allSucceed with
    onConnectionConfigChanged := fun _ => .panics (.describable "listener fault") }

/-- As `allSucceed`, but the listener panics with an `error` whose `Error` method faults. -/
def listenerPanicsWithFaultyError : Collaborators :=
  { allSucceed with
    onConnectionConfigChanged := fun _ => .panics (.faulting nilDereference) }

/-- Whether `helpers.ToError(r).Error()` returns on this panic value. -/
def PanicValue.renders : PanicValue → Bool
  | .describable _ => true
  | .faulting _ => false

/-- A call that returns, or panics with a value that renders. -/
def Call.rendersFault {α : Type} : Call α → Prop
  | .returns _ => True
  | .panics r => r.renders = true

/-- Every panic a collaborator raises carries a value that renders. -/
def Collaborators.faultsRender (c : Collaborators) : Prop :=
  c.LoadConnectionConfig.rendersFault ∧ c.NewLocalClient.rendersFault ∧
    (∀ m, (c.onConnectionConfigChanged m).rendersFault) ∧
    (∀ cfg, (c.ConfigMap cfg).rendersFault) ∧
    (∀ kv store r, (c.SetViperDefaults kv store).2 = some r → r.renders = true) ∧
    (∀ cl, (c.RefreshConnectionAndSearchPaths cl).rendersFault) ∧
    (∀ res, (c.ShowWarnings res).rendersFault) ∧
    (∀ cl, (c.Close cl).rendersFault)

/-- The number `2^64 + 1` of batches after which the counter is back at `1`. -/
def wrapAroundLength : Nat :=
  18446744073709551617

/-- As many startup-like batches, all with succeeding collaborators, as make the counter wrap
around once. -/
def wrapAroundBatches : List (List FsEvent × Collaborators) :=
  List.replicate wrapAroundLength ([], allSucceed)

/-- A watcher that has already seen its first event batch. -/
def startedWatcher : ConnectionWatcher :=
  { count := 1 }

/-- Globals before any reload. -/
def initialGlobals : Globals :=
  { GlobalConfig := none, viperDefaults := [] }

/-- Three event batches: the startup batch, one whose load fails, one whose listener panics. -/
def sampleBatches : List (List FsEvent × Collaborators) :=
  [([], allSucceed), ([{ Name := "aws.spc", Op := 2 }], loadFails), ([], listenerPanics)]

/-! ## Lemmas on the translated map -/

theorem mem_mapKeys_mapSet (m : ConnectionConfigMap) (k : String) (v : ConnectionConfig)
    (x : String) : x ∈ mapKeys (mapSet m k v) ↔ x = k ∨ x ∈ mapKeys m := by
  induction m with
  | nil => simp [mapSet, mapKeys]
  | cons hd tl ih =>
    obtain ⟨k0, v0⟩ := hd
    unfold mapSet
    by_cases hk : k0 = k
    · subst hk
      simp [mapKeys]
    · simp only [mapKeys] at ih
      simp only [hk, if_false, mapKeys, List.map_cons, List.mem_cons, ih]
      tauto

theorem nodup_mapKeys_mapSet (m : ConnectionConfigMap) (k : String) (v : ConnectionConfig)
    (h : (mapKeys m).Nodup) : (mapKeys (mapSet m k v)).Nodup := by
  induction m with
  | nil => simp [mapSet, mapKeys]
  | cons hd tl ih =>
    obtain ⟨k0, v0⟩ := hd
    have hnd : k0 ∉ mapKeys tl ∧ (mapKeys tl).Nodup := by
      simpa [mapKeys] using h
    unfold mapSet
    by_cases hk : k0 = k
    · subst hk
      simpa [mapKeys] using h
    · have hmem := mem_mapKeys_mapSet tl k v k0
      have htl := ih hnd.2
      simp only [mapKeys] at hmem htl hnd
      simp only [hk, if_false, mapKeys, List.map_cons, List.nodup_cons]
      exact ⟨fun hin => (hmem.1 hin).elim hk hnd.1, htl⟩

/-- Folding `mapSet` over connections keeps the keys distinct and adds exactly their names. -/
theorem foldl_mapSet_keys (connections : List Connection) (m : ConnectionConfigMap)
    (h : (mapKeys m).Nodup) :
    (mapKeys (connections.foldl
        (fun m conn => mapSet m conn.Name { Connection := conn.Name, Config := conn.Config })
        m)).Nodup ∧
      ∀ k, k ∈ mapKeys (connections.foldl
        (fun m conn => mapSet m conn.Name { Connection := conn.Name, Config := conn.Config })
        m) ↔ k ∈ mapKeys m ∨ ∃ conn ∈ connections, conn.Name = k := by
  induction connections generalizing m with
  | nil => simp [h]
  | cons conn rest ih =>
    have step := ih (mapSet m conn.Name { Connection := conn.Name, Config := conn.Config })
      (nodup_mapKeys_mapSet m _ _ h)
    refine ⟨step.1, fun k => ?_⟩
    rw [List.foldl_cons, step.2 k, mem_mapKeys_mapSet]
    constructor
    · rintro ((hk | hk) | ⟨x, hx, hk⟩)
      · exact Or.inr ⟨conn, List.mem_cons_self _ _, hk.symm⟩
      · exact Or.inl hk
      · exact Or.inr ⟨x, List.mem_cons_of_mem _ hx, hk⟩
    · rintro (hk | ⟨x, hx, hk⟩)
      · exact Or.inl (Or.inr hk)
      · rcases List.mem_cons.1 hx with rfl | hx
        · exact Or.inl (Or.inl hk.symm)
        · exact Or.inr ⟨x, hx, hk⟩

/-- The keys of the translated map are distinct and are exactly the connection names. -/
theorem NewConnectionConfigMap_keys (connections : List Connection) :
    (mapKeys (NewConnectionConfigMap connections)).Nodup ∧
      ∀ k, k ∈ mapKeys (NewConnectionConfigMap connections) ↔
        ∃ conn ∈ connections, conn.Name = k := by
  have h := foldl_mapSet_keys connections [] (by simp [mapKeys])
  refine ⟨h.1, fun k => ?_⟩
  have hk := h.2 k
  simpa [NewConnectionConfigMap, mapKeys] using hk


/-! ## Observations distribute over concatenation -/

theorem loaderCalls_append (a b : List Event) :
    loaderCalls (a ++ b) = loaderCalls a + loaderCalls b := by
  simp [loaderCalls]

theorem listenerCalls_append (a b : List Event) :
    listenerCalls (a ++ b) = listenerCalls a ++ listenerCalls b := by
  simp [listenerCalls, List.filterMap_append]

theorem closeCalls_append (a b : List Event) :
    closeCalls (a ++ b) = closeCalls a ++ closeCalls b := by
  simp [closeCalls, List.filterMap_append]

theorem shownWarnings_append (a b : List Event) :
    shownWarnings (a ++ b) = shownWarnings a ++ shownWarnings b := by
  simp [shownWarnings, List.filterMap_append]

/-! ## The part of the body after the deferred close is registered -/

theorem afterDefer_w (c : Collaborators) (config : Option SteampipeConfig)
    (client : Option LocalDbClient) (s : St) : (afterDefer c config client s).1.w = s.w := by
  unfold afterDefer
  simp only [St.emit]
  repeat' split
  all_goals rfl

theorem afterDefer_loaderCalls (c : Collaborators) (config : Option SteampipeConfig)
    (client : Option LocalDbClient) (s : St) :
    loaderCalls (afterDefer c config client s).1.trace = loaderCalls s.trace := by
  unfold afterDefer
  simp only [St.emit]
  repeat' split
  all_goals simp [loaderCalls]

theorem afterDefer_closeCalls (c : Collaborators) (config : Option SteampipeConfig)
    (client : Option LocalDbClient) (s : St) :
    closeCalls (afterDefer c config client s).1.trace = closeCalls s.trace := by
  unfold afterDefer
  simp only [St.emit]
  repeat' split
  all_goals simp [closeCalls, List.filterMap_append]

theorem afterDefer_listenerCalls (c : Collaborators) (config : Option SteampipeConfig)
    (client : Option LocalDbClient) (s : St) :
    listenerCalls (afterDefer c config client s).1.trace =
      listenerCalls s.trace ++
        (match config with
          | none => []
          | some cfg => [NewConnectionConfigMap cfg.Connections]) := by
  unfold afterDefer
  simp only [St.emit]
  repeat' split
  all_goals simp [listenerCalls, List.filterMap_append]

/-! ## Arithmetic of the counter -/

theorem GoInt.ext_val {a b : GoInt} (h : a.val = b.val) : a = b := by
  cases a
  cases b
  simp_all

theorem GoInt.val_wrap (x : Int) :
    (GoInt.wrap x).val =
      (x + 9223372036854775808) % 18446744073709551616 - 9223372036854775808 :=
  rfl

theorem GoInt.val_add (a b : GoInt) : (a + b).val = (GoInt.wrap (a.val + b.val)).val :=
  rfl

theorem GoInt.val_zero : (0 : GoInt).val = 0 := by
  decide

theorem GoInt.val_one : (1 : GoInt).val = 1 := by
  decide

theorem GoInt.add_one_eq_wrap (x : GoInt) : x + 1 = GoInt.wrap (x.val + 1) := by
  apply GoInt.ext_val
  rw [GoInt.val_add, GoInt.val_one]

/-- The increment gives `1` exactly on the counter `0`. -/
theorem GoInt.add_one_eq_one (x : GoInt) : x + 1 = 1 ↔ x = 0 := by
  constructor
  · intro h
    have hv := congrArg GoInt.val h
    rw [GoInt.val_add, GoInt.val_one, GoInt.val_wrap] at hv
    apply GoInt.ext_val
    rw [GoInt.val_zero]
    have h1 := x.lo
    have h2 := x.hi
    omega
  · intro h
    subst h
    decide

theorem GoInt.wrap_wrap_add (a b : Int) :
    GoInt.wrap ((GoInt.wrap a).val + b) = GoInt.wrap (a + b) := by
  apply GoInt.ext_val
  simp only [GoInt.val_wrap]
  omega

/-- Below `2^64` increments the counter is not back at `1`. -/
theorem GoInt.wrap_succ_eq_one (n : Nat) (h : n < 18446744073709551616) :
    GoInt.wrap ((n : Int) + 1) = 1 ↔ n = 0 := by
  constructor
  · intro hw
    have hv := congrArg GoInt.val hw
    rw [GoInt.val_one, GoInt.val_wrap] at hv
    omega
  · intro hn
    subst hn
    decide

/-- Below `2^63` the counter is the number of increments. -/
theorem GoInt.val_wrap_small (n : Nat) (h : n + 1 < 9223372036854775808) :
    (GoInt.wrap ((n : Int) + 1)).val = (n : Int) + 1 := by
  rw [GoInt.val_wrap]
  omega

/-! ## The body and the handler -/

theorem handlerBody_w (c : Collaborators) (s : St) :
    (handlerBody c s).1.w.count = s.w.count + 1 := by
  unfold handlerBody
  simp only [St.emit]
  repeat' split
  all_goals simp only [afterDefer_w]

theorem handlerBody_loaderCalls (c : Collaborators) (s : St) :
    loaderCalls (handlerBody c s).1.trace =
      loaderCalls s.trace + (if s.w.count + 1 = 1 then 0 else 1) := by
  unfold handlerBody
  simp only [St.emit]
  repeat' split
  all_goals simp only [loaderCalls_append, afterDefer_loaderCalls]
  all_goals simp_all [loaderCalls]

theorem deferredRecover_loaderCalls (x : Exit) : loaderCalls (deferredRecover x).1 = 0 := by
  cases x with
  | returned => rfl
  | panicked p => cases p <;> rfl

theorem deferredRecover_closeCalls (x : Exit) : closeCalls (deferredRecover x).1 = [] := by
  cases x with
  | returned => rfl
  | panicked p => cases p <;> rfl

theorem deferredRecover_listenerCalls (x : Exit) : listenerCalls (deferredRecover x).1 = [] := by
  cases x with
  | returned => rfl
  | panicked p => cases p <;> rfl

theorem deferredRecover_shownWarnings (x : Exit) : shownWarnings (deferredRecover x).1 = [] := by
  cases x with
  | returned => rfl
  | panicked p => cases p <;> rfl

/-- The closure recovers every panic whose value renders. -/
theorem deferredRecover_exit (x : Exit) (h : ∀ r, x = .panicked r → r.renders = true) :
    (deferredRecover x).2 = .returned := by
  cases x with
  | returned => rfl
  | panicked p =>
    cases p with
    | describable t => rfl
    | faulting q => simpa [PanicValue.renders] using h _ rfl

theorem handleFileWatcherEvent_w (c : Collaborators) (w : ConnectionWatcher) (g : Globals)
    (e : List FsEvent) :
    (handleFileWatcherEvent c w g e).w = (handlerBody c { w := w, g := g, trace := [] }).1.w :=
  rfl

theorem handleFileWatcherEvent_g (c : Collaborators) (w : ConnectionWatcher) (g : Globals)
    (e : List FsEvent) :
    (handleFileWatcherEvent c w g e).g = (handlerBody c { w := w, g := g, trace := [] }).1.g :=
  rfl

theorem handleFileWatcherEvent_trace (c : Collaborators) (w : ConnectionWatcher) (g : Globals)
    (e : List FsEvent) :
    (handleFileWatcherEvent c w g e).trace =
      (handlerBody c { w := w, g := g, trace := [] }).1.trace ++
        (deferredRecover (handlerBody c { w := w, g := g, trace := [] }).2).1 :=
  rfl

/-- Every invocation increments the counter by one, in machine arithmetic. -/
theorem handleFileWatcherEvent_count (c : Collaborators) (w : ConnectionWatcher) (g : Globals)
    (e : List FsEvent) : (handleFileWatcherEvent c w g e).w.count = w.count + 1 := by
  rw [handleFileWatcherEvent_w, handlerBody_w]

/-- The loader is called once, except by the invocation that makes the counter `1`. -/
theorem handleFileWatcherEvent_loaderCalls (c : Collaborators) (w : ConnectionWatcher)
    (g : Globals) (e : List FsEvent) :
    loaderCalls (handleFileWatcherEvent c w g e).trace = if w.count + 1 = 1 then 0 else 1 := by
  rw [handleFileWatcherEvent_trace, loaderCalls_append, handlerBody_loaderCalls,
    deferredRecover_loaderCalls]
  simp [loaderCalls]

theorem handlerBody_closeCalls (c : Collaborators) (s : St) :
    closeCalls (handlerBody c s).1.trace =
      closeCalls s.trace ++
        (if s.w.count + 1 = 1 then []
         else match c.LoadConnectionConfig with
          | .returns (_, none) =>
            (match c.NewLocalClient with
              | .returns (client, _) => [client]
              | .panics _ => [])
          | _ => []) := by
  unfold handlerBody
  by_cases h : s.w.count + 1 = 1
  · simp [St.emit, h, closeCalls, List.filterMap_append]
  · rcases hL : c.LoadConnectionConfig with ⟨config, _ | err⟩ | r
    · rcases hN : c.NewLocalClient with ⟨client, _ | err⟩ | r
      · rcases hC : c.Close client with _ | r
        all_goals
          simp only [St.emit, h, hL, hN, hC, if_false, closeCalls_append,
            afterDefer_closeCalls]
          simp [closeCalls]
      · rcases hC : c.Close client with _ | r
        all_goals
          simp only [St.emit, h, hL, hN, hC, if_false, closeCalls_append,
            afterDefer_closeCalls]
          simp [closeCalls]
      · simp [St.emit, h, hL, hN, closeCalls, List.filterMap_append]
    · simp [St.emit, h, hL, closeCalls, List.filterMap_append]
    · simp [St.emit, h, hL, closeCalls, List.filterMap_append]

theorem handlerBody_listenerCalls (c : Collaborators) (s : St) :
    listenerCalls (handlerBody c s).1.trace =
      listenerCalls s.trace ++
        (if s.w.count + 1 = 1 then []
         else match c.LoadConnectionConfig with
          | .returns (config, none) =>
            (match c.NewLocalClient with
              | .returns _ =>
                (match config with
                  | none => []
                  | some cfg => [NewConnectionConfigMap cfg.Connections])
              | .panics _ => [])
          | _ => []) := by
  unfold handlerBody
  by_cases h : s.w.count + 1 = 1
  · simp [St.emit, h, listenerCalls, List.filterMap_append]
  · rcases hL : c.LoadConnectionConfig with ⟨config, _ | err⟩ | r
    · rcases hN : c.NewLocalClient with ⟨client, _ | err⟩ | r
      · rcases hC : c.Close client with _ | r
        all_goals
          simp only [St.emit, h, hL, hN, hC, if_false, listenerCalls_append,
            afterDefer_listenerCalls]
          simp [listenerCalls]
      · rcases hC : c.Close client with _ | r
        all_goals
          simp only [St.emit, h, hL, hN, hC, if_false, listenerCalls_append,
            afterDefer_listenerCalls]
          simp [listenerCalls]
      · simp [St.emit, h, hL, hN, listenerCalls, List.filterMap_append]
    · simp [St.emit, h, hL, listenerCalls, List.filterMap_append]
    · simp [St.emit, h, hL, listenerCalls, List.filterMap_append]

/-- Which clients an invocation closes: the handle `NewLocalClient` returned, if it returned. -/
theorem handleFileWatcherEvent_closeCalls (c : Collaborators) (w : ConnectionWatcher)
    (g : Globals) (e : List FsEvent) :
    closeCalls (handleFileWatcherEvent c w g e).trace =
      if w.count = 0 then []
      else match c.LoadConnectionConfig with
        | .returns (_, none) =>
          (match c.NewLocalClient with
            | .returns (client, _) => [client]
            | .panics _ => [])
        | _ => [] := by
  rw [handleFileWatcherEvent_trace, closeCalls_append, handlerBody_closeCalls,
    deferredRecover_closeCalls]
  simp [closeCalls, GoInt.add_one_eq_one]

/-- Which maps an invocation hands to the listener. -/
theorem handleFileWatcherEvent_listenerCalls (c : Collaborators) (w : ConnectionWatcher)
    (g : Globals) (e : List FsEvent) :
    listenerCalls (handleFileWatcherEvent c w g e).trace =
      if w.count = 0 then []
      else match c.LoadConnectionConfig with
        | .returns (config, none) =>
          (match c.NewLocalClient with
            | .returns _ =>
              (match config with
                | none => []
                | some cfg => [NewConnectionConfigMap cfg.Connections])
            | .panics _ => [])
        | _ => [] := by
  rw [handleFileWatcherEvent_trace, listenerCalls_append, handlerBody_listenerCalls,
    deferredRecover_listenerCalls]
  simp [listenerCalls, GoInt.add_one_eq_one]

/-! ## Which panics can leave the body -/

theorem Call.rendersFault_panics {α : Type} {x : Call α} {r : PanicValue}
    (h : x.rendersFault) (hx : x = .panics r) : r.renders = true := by
  subst hx
  exact h

theorem nilDereference_renders : nilDereference.renders = true :=
  rfl

theorem afterDefer_exit_renders (c : Collaborators) (h : c.faultsRender)
    (config : Option SteampipeConfig) (client : Option LocalDbClient) (s : St) (r : PanicValue)
    (hr : (afterDefer c config client s).2 = .panicked r) : r.renders = true := by
  obtain ⟨_, _, h3, h4, h5, h6, h7, _⟩ := h
  unfold afterDefer at hr
  simp only [St.emit] at hr
  cases config with
  | none =>
    simp only [Exit.panicked.injEq] at hr
    subst hr
    rfl
  | some cfg =>
    simp only at hr
    rcases hL : c.onConnectionConfigChanged (NewConnectionConfigMap cfg.Connections) with _ | p
    · rcases hK : c.ConfigMap cfg with kv | p
      · rcases hV : (c.SetViperDefaults kv s.g.viperDefaults).2 with _ | p
        · rcases hR : c.RefreshConnectionAndSearchPaths client with res | p
          · rcases hE : res.Error with _ | err
            · rcases hS : c.ShowWarnings res with _ | p
              · simp [hL, hK, hV, hR, hE, hS] at hr
              · simp only [hL, hK, hV, hR, hE, hS, Exit.panicked.injEq] at hr
                subst hr
                exact Call.rendersFault_panics (h7 res) hS
            · simp [hL, hK, hV, hR, hE] at hr
          · simp only [hL, hK, hV, hR, Exit.panicked.injEq] at hr
            subst hr
            exact Call.rendersFault_panics (h6 client) hR
        · simp only [hL, hK, hV, Exit.panicked.injEq] at hr
          subst hr
          exact h5 _ _ _ hV
      · simp only [hL, hK, Exit.panicked.injEq] at hr
        subst hr
        exact Call.rendersFault_panics (h4 cfg) hK
    · simp only [hL, Exit.panicked.injEq] at hr
      subst hr
      exact Call.rendersFault_panics (h3 _) hL

theorem handlerBody_exit_renders (c : Collaborators) (h : c.faultsRender) (s : St)
    (r : PanicValue) (hr : (handlerBody c s).2 = .panicked r) : r.renders = true := by
  have hA := afterDefer_exit_renders c h
  obtain ⟨h1, h2, _, _, _, _, _, h8⟩ := h
  unfold handlerBody at hr
  simp only [St.emit] at hr
  by_cases hc : s.w.count + 1 = 1
  · simp [hc] at hr
  · rcases hL : c.LoadConnectionConfig with ⟨config, _ | err⟩ | p
    · rcases hN : c.NewLocalClient with ⟨client, err⟩ | p
      · rcases hC : c.Close client with _ | p
        · simp only [hc, hL, hN, hC, if_false] at hr
          exact hA _ _ _ _ hr
        · simp only [hc, hL, hN, hC, if_false, Exit.panicked.injEq] at hr
          subst hr
          exact Call.rendersFault_panics (h8 client) hC
      · simp only [hc, hL, hN, if_false, Exit.panicked.injEq] at hr
        subst hr
        exact Call.rendersFault_panics h2 hN
    · simp [hc, hL] at hr
    · simp only [hc, hL, if_false, Exit.panicked.injEq] at hr
      subst hr
      exact Call.rendersFault_panics h1 hL

/-- When every panic of the collaborators renders, the invocation returns normally. -/
theorem handleFileWatcherEvent_exit (c : Collaborators) (h : c.faultsRender)
    (w : ConnectionWatcher) (g : Globals) (e : List FsEvent) :
    (handleFileWatcherEvent c w g e).exit = .returned :=
  deferredRecover_exit _ (handlerBody_exit_renders c h _)

/-! ## Sequences of event batches -/

theorem handleAll_length (w : ConnectionWatcher) (g : Globals)
    (bs : List (List FsEvent × Collaborators)) : (handleAll w g bs).length = bs.length := by
  induction bs generalizing w g with
  | nil => rfl
  | cons b rest ih => simp [handleAll, ih]

theorem handleAll_exit (w : ConnectionWatcher) (g : Globals)
    (bs : List (List FsEvent × Collaborators)) (h : ∀ b ∈ bs, b.2.faultsRender) :
    ∀ o ∈ handleAll w g bs, o.exit = .returned := by
  induction bs generalizing w g with
  | nil => simp [handleAll]
  | cons b rest ih =>
    intro o ho
    simp only [handleAll, List.mem_cons] at ho
    rcases ho with rfl | ho
    · exact handleFileWatcherEvent_exit _ (h b (List.mem_cons_self _ _)) _ _ _
    · exact ih _ _ (fun x hx => h x (List.mem_cons_of_mem _ hx)) o ho

theorem handleFileWatcherEvent_w_eq (c : Collaborators) (w : ConnectionWatcher) (g : Globals)
    (e : List FsEvent) :
    (handleFileWatcherEvent c w g e).w = { count := GoInt.wrap (w.count.val + 1) } := by
  have h := handleFileWatcherEvent_count c w g e
  rw [GoInt.add_one_eq_wrap] at h
  cases hw : (handleFileWatcherEvent c w g e).w
  rw [hw] at h
  simp only at h
  rw [h]

/-- Started at the counter `GoInt.wrap k`, the `i`-th invocation leaves the counter at
`GoInt.wrap (k + i + 1)` and calls the loader once unless that counter is `1`. -/
theorem handleAll_get (k : Int) (g : Globals) (bs : List (List FsEvent × Collaborators))
    (i : Nat) (o : Outcome) (h : (handleAll { count := GoInt.wrap k } g bs)[i]? = some o) :
    o.w.count = GoInt.wrap (k + i + 1) ∧
      loaderCalls o.trace = if GoInt.wrap (k + i + 1) = 1 then 0 else 1 := by
  induction bs generalizing k g i with
  | nil => simp [handleAll] at h
  | cons b rest ih =>
    have hc := handleFileWatcherEvent_w_eq b.2 { count := GoInt.wrap k } g b.1
    simp only [GoInt.wrap_wrap_add] at hc
    cases i with
    | zero =>
      simp only [handleAll, List.getElem?_cons_zero, Option.some.injEq] at h
      subst h
      refine ⟨by simp [hc], ?_⟩
      rw [handleFileWatcherEvent_loaderCalls, GoInt.add_one_eq_wrap, GoInt.wrap_wrap_add]
      simp
    | succ j =>
      simp only [handleAll, List.getElem?_cons_succ] at h
      rw [hc] at h
      have := ih (k + 1) _ j h
      have e1 : k + 1 + (j : Int) + 1 = k + ((j + 1 : Nat) : Int) + 1 := by
        push_cast
        ring
      rw [e1] at this
      exact this

/-- When no invocation of the sequence brings the counter to `1`, every batch calls the
loader once. -/
theorem handleAll_loaderCalls_sum (k : Int) (g : Globals)
    (bs : List (List FsEvent × Collaborators))
    (h : ∀ i : Nat, i < bs.length → GoInt.wrap (k + i + 1) ≠ 1) :
    ((handleAll { count := GoInt.wrap k } g bs).map fun o => loaderCalls o.trace).sum =
      bs.length := by
  induction bs generalizing k g with
  | nil => simp [handleAll]
  | cons b rest ih =>
    have hc := handleFileWatcherEvent_w_eq b.2 { count := GoInt.wrap k } g b.1
    simp only [GoInt.wrap_wrap_add] at hc
    have h0 : GoInt.wrap (k + 1) ≠ 1 := by
      have := h 0 (by simp)
      simpa using this
    have hrest : ∀ i : Nat, i < rest.length → GoInt.wrap (k + 1 + i + 1) ≠ 1 := by
      intro i hi
      have := h (i + 1) (by simpa using hi)
      have e1 : k + ((i + 1 : Nat) : Int) + 1 = k + 1 + (i : Int) + 1 := by
        push_cast
        ring
      rw [e1] at this
      exact this
    simp only [handleAll, List.map_cons, List.sum_cons, hc, ih (k + 1) _ hrest,
      handleFileWatcherEvent_loaderCalls, GoInt.add_one_eq_wrap, GoInt.wrap_wrap_add,
      List.length_cons, h0, if_false]
    omega

theorem GoInt.wrap_zero : GoInt.wrap 0 = 0 :=
  rfl

/-! ## The claims -/

/-- C1: the invocation on a watcher whose counter is still `0` (a freshly constructed one)
performs no reload, whatever the event batch and the collaborators: the counter becomes `1`,
the global configuration slot and the viper defaults are unchanged, the trace is the single
log line of the first-event branch, so no collaborator (loader, client constructor, listener,
global update, refresh) is called, and the handler returns. -/
theorem first_event_performs_no_reload (c : Collaborators) (w : ConnectionWatcher)
    (g : Globals) (e : List FsEvent) (h : w.count = 0) :
    handleFileWatcherEvent c w g e =
        { w := { count := 1 }, g := g,
          trace := [.log "[TRACE] handleFileWatcherEvent ignoring first event"],
          exit := .returned } ∧
      calls (handleFileWatcherEvent c w g e).trace = [] ∧
      loaderCalls (handleFileWatcherEvent c w g e).trace = 0 ∧
      listenerCalls (handleFileWatcherEvent c w g e).trace = [] := by
  have h1 : w.count + 1 = 1 := (GoInt.add_one_eq_one w.count).2 h
  have hEq : handleFileWatcherEvent c w g e =
      { w := { count := 1 }, g := g,
        trace := [.log "[TRACE] handleFileWatcherEvent ignoring first event"],
        exit := .returned } := by
    simp [handleFileWatcherEvent, handlerBody, deferredRecover, St.emit, h1]
  rw [hEq]
  exact ⟨rfl, rfl, rfl, rfl⟩

theorem first_event_performs_no_reload_witness :
    NewConnectionWatcher (.ok ()) = .ok { count := 0 } ∧
      (handleFileWatcherEvent allSucceed { count := 0 } initialGlobals [] =
          { w := { count := 1 }, g := initialGlobals,
            trace := [.log "[TRACE] handleFileWatcherEvent ignoring first event"],
            exit := .returned } ∧
        calls (handleFileWatcherEvent allSucceed { count := 0 } initialGlobals []).trace = [] ∧
        loaderCalls (handleFileWatcherEvent allSucceed { count := 0 } initialGlobals []).trace = 0 ∧
        listenerCalls (handleFileWatcherEvent allSucceed { count := 0 } initialGlobals []).trace
          = []) :=
  ⟨rfl, first_event_performs_no_reload allSucceed { count := 0 } initialGlobals [] rfl⟩

theorem wrapAroundBatches_length : wrapAroundBatches.length = wrapAroundLength :=
  List.length_replicate _ _

theorem wrapAround_counter :
    GoInt.wrap (0 + ((18446744073709551616 : Nat) : Int) + 1) = 1 := by
  apply GoInt.ext_val
  rw [GoInt.val_wrap, GoInt.val_one]
  norm_num

/-- C2, as stated, fails: the counter is a machine integer, so among `2^64 + 1` batches
handled one after another from `count = 0` the batch with index `2^64`, which is not the
first, finds the counter back at `1` and is ignored like the first one: no loader call. -/
theorem later_batch_ignored_after_wrap_around :
    ∃ o, (handleAll { count := 0 } initialGlobals wrapAroundBatches)[18446744073709551616]?
        = some o ∧
      o.w.count = 1 ∧ loaderCalls o.trace = 0 := by
  have hlen : 18446744073709551616 <
      (handleAll { count := 0 } initialGlobals wrapAroundBatches).length := by
    rw [handleAll_length, wrapAroundBatches_length]
    unfold wrapAroundLength
    norm_num
  have hget := List.getElem?_eq_getElem hlen
  have h := handleAll_get 0 initialGlobals wrapAroundBatches 18446744073709551616 _ hget
  rw [wrapAround_counter] at h
  exact ⟨_, hget, h.1, by rw [h.2, if_pos rfl]⟩

/-- C2, amended: for every sequence of at most `2^64` event batches handled one after another
by a watcher that starts at `count = 0`, with arbitrary collaborator answers per batch (errors
and panics included): every batch is handled, the `i`-th invocation (from `0`) leaves the
counter at `i + 1` in 64-bit machine arithmetic, which is the number `i + 1` itself below
`2^63`, it calls the config loader exactly once unless it is the first, and the `n` batches
together make `n - 1` loader calls. -/
theorem one_reload_attempt_per_later_batch (g : Globals)
    (bs : List (List FsEvent × Collaborators)) (hn : bs.length ≤ 18446744073709551616) :
    (handleAll { count := 0 } g bs).length = bs.length ∧
      (∀ (i : Nat) (o : Outcome), (handleAll { count := 0 } g bs)[i]? = some o →
        o.w.count = GoInt.wrap ((i : Int) + 1) ∧
        (i + 1 < 9223372036854775808 → o.w.count.val = (i : Int) + 1) ∧
        loaderCalls o.trace = if i = 0 then 0 else 1) ∧
      ((handleAll { count := 0 } g bs).map fun o => loaderCalls o.trace).sum = bs.length - 1 := by
  refine ⟨handleAll_length _ _ _, ?_, ?_⟩
  · intro i o h
    have hi : i < bs.length := by
      have := (List.getElem?_eq_some.1 h).1
      rwa [handleAll_length] at this
    have hg := handleAll_get 0 g bs i o h
    simp only [zero_add] at hg
    refine ⟨hg.1, fun hs => ?_, ?_⟩
    · rw [hg.1]
      exact GoInt.val_wrap_small i hs
    · rw [hg.2]
      have hiff := GoInt.wrap_succ_eq_one i (by omega)
      by_cases h0 : i = 0
      · rw [if_pos (hiff.2 h0), if_pos h0]
      · rw [if_neg (mt hiff.1 h0), if_neg h0]
  · cases bs with
    | nil => simp [handleAll]
    | cons b rest =>
      have hc := handleFileWatcherEvent_w_eq b.2 { count := 0 } g b.1
      have h01 : GoInt.wrap ((0 : GoInt).val + 1) = GoInt.wrap 1 := rfl
      rw [h01] at hc
      have hrest : ∀ i : Nat, i < rest.length → GoInt.wrap (1 + (i : Int) + 1) ≠ 1 := by
        intro i hi
        have hlt : i + 1 < 18446744073709551616 := by
          simp only [List.length_cons] at hn
          omega
        have hiff := GoInt.wrap_succ_eq_one (i + 1) hlt
        have e1 : (1 : Int) + (i : Int) + 1 = ((i + 1 : Nat) : Int) + 1 := by
          push_cast
          ring
        rw [e1]
        exact fun hh => Nat.succ_ne_zero i (hiff.1 hh)
      have hfirst : (0 : GoInt) + 1 = 1 := by
        decide
      simp only [handleAll, List.map_cons, List.sum_cons, hc,
        handleAll_loaderCalls_sum 1 _ rest hrest, handleFileWatcherEvent_loaderCalls, hfirst,
        if_true, List.length_cons]
      omega

theorem one_reload_attempt_per_later_batch_witness :
    (handleAll { count := 0 } initialGlobals sampleBatches).length = sampleBatches.length ∧
      ((handleFileWatcherEvent loadFails { count := 1 } initialGlobals
          [{ Name := "aws.spc", Op := 2 }]).w.count = GoInt.wrap (((1 : Nat) : Int) + 1) ∧
        (1 + 1 < 9223372036854775808 →
          (handleFileWatcherEvent loadFails { count := 1 } initialGlobals
            [{ Name := "aws.spc", Op := 2 }]).w.count.val = ((1 : Nat) : Int) + 1) ∧
        loaderCalls (handleFileWatcherEvent loadFails { count := 1 } initialGlobals
          [{ Name := "aws.spc", Op := 2 }]).trace = if 1 = 0 then 0 else 1) ∧
      ((handleAll { count := 0 } initialGlobals sampleBatches).map
        fun o => loaderCalls o.trace).sum = sampleBatches.length - 1 :=
  ⟨(one_reload_attempt_per_later_batch initialGlobals sampleBatches (by decide)).1,
    (one_reload_attempt_per_later_batch initialGlobals sampleBatches (by decide)).2.1 1 _
      (by decide),
    (one_reload_attempt_per_later_batch initialGlobals sampleBatches (by decide)).2.2⟩

/-- C3: on a non-first event batch for which the config loader returns an error, the handler
logs and returns: the listener is not invoked, the global configuration slot and the viper
defaults are what they were, and the only collaborator called is the loader (no client is
created, nothing is refreshed or closed). -/
theorem load_error_leaves_state_untouched (c : Collaborators) (w : ConnectionWatcher)
    (g : Globals) (e : List FsEvent) (config : Option SteampipeConfig) (err : Err)
    (hw : w.count ≠ 0) (hl : c.LoadConnectionConfig = .returns (config, some err)) :
    handleFileWatcherEvent c w g e =
        { w := { count := w.count + 1 }, g := g,
          trace := [.log "[TRACE] ConnectionWatcher handleFileWatcherEvent",
            .LoadConnectionConfig,
            .log ("[WARN] error loading updated connection config: " ++ err)],
          exit := .returned } ∧
      (handleFileWatcherEvent c w g e).g = g ∧
      listenerCalls (handleFileWatcherEvent c w g e).trace = [] ∧
      calls (handleFileWatcherEvent c w g e).trace = [.LoadConnectionConfig] := by
  have h1 : ¬ (w.count + 1 = 1) := mt (GoInt.add_one_eq_one w.count).1 hw
  have hEq : handleFileWatcherEvent c w g e =
      { w := { count := w.count + 1 }, g := g,
        trace := [.log "[TRACE] ConnectionWatcher handleFileWatcherEvent",
          .LoadConnectionConfig,
          .log ("[WARN] error loading updated connection config: " ++ err)],
        exit := .returned } := by
    simp [handleFileWatcherEvent, handlerBody, deferredRecover, St.emit, h1, hl]
  rw [hEq]
  exact ⟨rfl, rfl, rfl, by simp [calls]⟩

theorem load_error_leaves_state_untouched_witness :
    handleFileWatcherEvent loadFails startedWatcher initialGlobals [] =
        { w := { count := startedWatcher.count + 1 }, g := initialGlobals,
          trace := [.log "[TRACE] ConnectionWatcher handleFileWatcherEvent",
            .LoadConnectionConfig,
            .log ("[WARN] error loading updated connection config: " ++ "parse error")],
          exit := .returned } ∧
      (handleFileWatcherEvent loadFails startedWatcher initialGlobals []).g = initialGlobals ∧
      listenerCalls (handleFileWatcherEvent loadFails startedWatcher initialGlobals []).trace
        = [] ∧
      calls (handleFileWatcherEvent loadFails startedWatcher initialGlobals []).trace =
        [.LoadConnectionConfig] :=
  load_error_leaves_state_untouched loadFails startedWatcher initialGlobals [] none
    "parse error" (by decide) rfl

/-- The panic of `listenerPanics` carries a value that renders. -/
theorem listenerPanics_faultsRender : listenerPanics.faultsRender := by
  refine ⟨trivial, trivial, fun _ => rfl, fun _ => trivial, ?_, fun _ => trivial,
    fun _ => trivial, fun _ => trivial⟩
  intro kv store r hr
  simp [listenerPanics, allSucceed] at hr

/-- C6, as stated, fails: on a non-first batch the listener panics with an `error` whose
`Error` method faults; the deferred closure recovers the panic, calls
`helpers.ToError(r).Error()` to log it, and the panic that call raises leaves the handler. -/
theorem fault_in_recover_closure_leaves_the_handler :
    (handleFileWatcherEvent listenerPanicsWithFaultyError startedWatcher initialGlobals []).exit =
        .panicked nilDereference ∧
      (handleFileWatcherEvent listenerPanicsWithFaultyError startedWatcher initialGlobals []).exit
        ≠ .returned := by
  constructor <;> decide

/-- C6, amended: for every watcher state, event batch and behaviour of the collaborators
(returning, returning an error, or panicking, the deferred close included) in which every panic
carries a value that `helpers.ToError(r).Error()` renders, the handler returns normally, and so
does the next invocation on the state it leaves; in a sequence of such batches every batch is
handled and every invocation returns normally. -/
theorem no_rendered_fault_leaves_the_handler (c : Collaborators) (w : ConnectionWatcher)
    (g : Globals) (e : List FsEvent) (h : c.faultsRender) :
    (handleFileWatcherEvent c w g e).exit = .returned ∧
      (∀ c2 e2, c2.faultsRender →
        (handleFileWatcherEvent c2 (handleFileWatcherEvent c w g e).w
          (handleFileWatcherEvent c w g e).g e2).exit = .returned) ∧
      (∀ bs, (∀ b ∈ bs, b.2.faultsRender) →
        (handleAll w g bs).length = bs.length ∧
        ∀ o ∈ handleAll w g bs, o.exit = .returned) :=
  ⟨handleFileWatcherEvent_exit c h w g e,
    fun c2 e2 h2 => handleFileWatcherEvent_exit c2 h2 _ _ e2,
    fun bs hbs => ⟨handleAll_length w g bs, handleAll_exit w g bs hbs⟩⟩

theorem no_rendered_fault_leaves_the_handler_witness :
    listenerPanics.faultsRender ∧
      (handleFileWatcherEvent listenerPanics startedWatcher initialGlobals []).exit = .returned :=
  ⟨listenerPanics_faultsRender,
    (no_rendered_fault_leaves_the_handler listenerPanics startedWatcher initialGlobals []
      listenerPanics_faultsRender).1⟩

/-- Once the listener has returned, the global slot holds the snapshot that was loaded. -/
theorem afterDefer_GlobalConfig (c : Collaborators) (cfg : SteampipeConfig)
    (client : Option LocalDbClient) (s : St)
    (hlis : c.onConnectionConfigChanged (NewConnectionConfigMap cfg.Connections) = .returns ()) :
    (afterDefer c (some cfg) client s).1.g.GlobalConfig = some cfg := by
  unfold afterDefer
  simp only [St.emit, hlis]
  repeat' split
  all_goals rfl

/-- When the refresh answers with an error, no warnings are shown. -/
theorem afterDefer_shownWarnings (c : Collaborators) (config : Option SteampipeConfig)
    (client : Option LocalDbClient) (s : St) (res : RefreshResult) (err : Err)
    (hr : c.RefreshConnectionAndSearchPaths client = .returns res) (he : res.Error = some err) :
    shownWarnings (afterDefer c config client s).1.trace = shownWarnings s.trace := by
  unfold afterDefer
  simp only [St.emit, hr, he]
  repeat' split
  all_goals simp [shownWarnings, List.filterMap_append]

/-- C4: on a non-first event batch on which the load and the client creation succeed and the
listener returns normally, but the refresh returns an error: when the handler has returned, the
global configuration slot holds the freshly loaded snapshot (no rollback), the listener has
been invoked exactly once (with the map of that snapshot), and no warnings were shown. -/
theorem refresh_error_keeps_new_config (c : Collaborators) (w : ConnectionWatcher)
    (g : Globals) (e : List FsEvent) (cfg : SteampipeConfig) (cl : LocalDbClient)
    (res : RefreshResult) (err : Err)
    (hw : w.count ≠ 0)
    (hl : c.LoadConnectionConfig = .returns (some cfg, none))
    (hn : c.NewLocalClient = .returns (some cl, none))
    (hlis : c.onConnectionConfigChanged (NewConnectionConfigMap cfg.Connections) = .returns ())
    (hr : c.RefreshConnectionAndSearchPaths (some cl) = .returns res)
    (he : res.Error = some err) :
    (handleFileWatcherEvent c w g e).g.GlobalConfig = some cfg ∧
      listenerCalls (handleFileWatcherEvent c w g e).trace =
        [NewConnectionConfigMap cfg.Connections] ∧
      shownWarnings (handleFileWatcherEvent c w g e).trace = [] := by
  have h1 : ¬ (w.count + 1 = 1) := mt (GoInt.add_one_eq_one w.count).1 hw
  refine ⟨?_, ?_, ?_⟩
  · rw [handleFileWatcherEvent_g]
    unfold handlerBody
    rcases hC : c.Close (some cl) with _ | r
    all_goals
      simp only [St.emit, h1, hl, hn, hC, if_false]
      exact afterDefer_GlobalConfig c cfg (some cl) _ hlis
  · rw [handleFileWatcherEvent_listenerCalls]
    simp [hw, hl, hn]
  · rw [handleFileWatcherEvent_trace, shownWarnings_append]
    have hb : shownWarnings (handlerBody c { w := w, g := g, trace := [] }).1.trace = [] := by
      unfold handlerBody
      rcases hC : c.Close (some cl) with _ | r
      all_goals
        simp only [St.emit, h1, hl, hn, hC, if_false, shownWarnings_append,
          afterDefer_shownWarnings c (some cfg) (some cl) _ res err hr he]
        simp [shownWarnings]
    rw [hb, deferredRecover_shownWarnings]
    rfl

theorem refresh_error_keeps_new_config_witness :
    (handleFileWatcherEvent refreshFails startedWatcher initialGlobals []).g.GlobalConfig =
      some sampleConfig ∧
      listenerCalls (handleFileWatcherEvent refreshFails startedWatcher initialGlobals []).trace =
        [NewConnectionConfigMap sampleConfig.Connections] ∧
      shownWarnings (handleFileWatcherEvent refreshFails startedWatcher initialGlobals []).trace
        = [] :=
  refresh_error_keeps_new_config refreshFails startedWatcher initialGlobals [] sampleConfig
    { id := 7 } { Error := some "refresh failed", Warnings := ["w1"] } "refresh failed"
    (by decide) rfl rfl rfl rfl rfl

/-- C5: in every invocation in which the downstream client is created successfully,
`client.Close` is called exactly once, on that client, whatever happens afterwards (normal
completion, a refresh error, or a panic of the listener, of the global-config update, of the
refresh, of the warning display or of the close itself); the invocation that ignores the first
event and an invocation whose load fails (with an error or a panic) call `Close` never. -/
theorem client_closed_exactly_once (c : Collaborators) (w : ConnectionWatcher) (g : Globals)
    (e : List FsEvent) :
    (∀ config cl, w.count ≠ 0 → c.LoadConnectionConfig = .returns (config, none) →
        c.NewLocalClient = .returns (some cl, none) →
        closeCalls (handleFileWatcherEvent c w g e).trace = [some cl]) ∧
      (w.count = 0 → closeCalls (handleFileWatcherEvent c w g e).trace = []) ∧
      (∀ config err, c.LoadConnectionConfig = .returns (config, some err) →
        closeCalls (handleFileWatcherEvent c w g e).trace = []) ∧
      (∀ r, c.LoadConnectionConfig = .panics r →
        closeCalls (handleFileWatcherEvent c w g e).trace = []) := by
  refine ⟨?_, ?_, ?_, ?_⟩
  · intro config cl hw hl hn
    rw [handleFileWatcherEvent_closeCalls]
    simp [hw, hl, hn]
  · intro hw
    rw [handleFileWatcherEvent_closeCalls]
    simp [hw]
  · intro config err hl
    rw [handleFileWatcherEvent_closeCalls]
    simp [hl]
  · intro r hl
    rw [handleFileWatcherEvent_closeCalls]
    simp [hl]

theorem client_closed_exactly_once_witness :
    closeCalls (handleFileWatcherEvent listenerPanics startedWatcher initialGlobals []).trace =
        [some { id := 7 }] ∧
      closeCalls (handleFileWatcherEvent allSucceed { count := 0 } initialGlobals []).trace
        = [] ∧
      closeCalls (handleFileWatcherEvent loadFails startedWatcher initialGlobals []).trace
        = [] :=
  ⟨(client_closed_exactly_once listenerPanics startedWatcher initialGlobals []).1
      (some sampleConfig) { id := 7 } (by decide) rfl rfl,
    (client_closed_exactly_once allSucceed { count := 0 } initialGlobals []).2.1 rfl,
    (client_closed_exactly_once loadFails startedWatcher initialGlobals []).2.2.1
      none "parse error" rfl⟩

/-- C7: evaluation of the handler on a non-first batch where the load succeeds and
`NewLocalClient` returns a nil client with an error: the handler logs the error and goes on. It
invokes the listener, overwrites the global configuration slot and the viper defaults, calls
`RefreshConnectionAndSearchPaths` on the nil client and the deferred `Close` on the nil
client. -/
theorem client_error_does_not_end_the_attempt :
    listenerCalls (handleFileWatcherEvent clientFails startedWatcher initialGlobals []).trace =
        [NewConnectionConfigMap sampleConfig.Connections] ∧
      (handleFileWatcherEvent clientFails startedWatcher initialGlobals []).g =
        { GlobalConfig := some sampleConfig, viperDefaults := [("cache", "true")] } ∧
      refreshCalls (handleFileWatcherEvent clientFails startedWatcher initialGlobals []).trace =
        [none] ∧
      closeCalls (handleFileWatcherEvent clientFails startedWatcher initialGlobals []).trace =
        [none] ∧
      initialGlobals = { GlobalConfig := none, viperDefaults := [] } := by
  refine ⟨?_, ?_, ?_, ?_, rfl⟩ <;> decide


/-- C8: whenever the handler invokes the listener with a map `m`, the loader has returned a
snapshot in this same invocation, `m` is the translation of that snapshot's connections, the
listener is invoked exactly once in the invocation, and the keys of `m` are pairwise distinct
and are exactly the connection names of the snapshot. -/
theorem listener_gets_map_of_fresh_snapshot (c : Collaborators) (w : ConnectionWatcher)
    (g : Globals) (e : List FsEvent) (m : ConnectionConfigMap)
    (h : m ∈ listenerCalls (handleFileWatcherEvent c w g e).trace) :
    ∃ cfg, c.LoadConnectionConfig = .returns (some cfg, none) ∧
      m = NewConnectionConfigMap cfg.Connections ∧
      listenerCalls (handleFileWatcherEvent c w g e).trace = [m] ∧
      (mapKeys m).Nodup ∧
      ∀ k, k ∈ mapKeys m ↔ ∃ conn ∈ cfg.Connections, conn.Name = k := by
  rw [handleFileWatcherEvent_listenerCalls] at h ⊢
  by_cases hw : w.count = 0
  · simp [hw] at h
  · rcases hL : c.LoadConnectionConfig with ⟨config, _ | err⟩ | r
    · rcases hN : c.NewLocalClient with p | r
      · cases config with
        | none => simp [hw, hL, hN] at h
        | some cfg =>
          simp only [hw, hL, hN, if_false, List.mem_singleton] at h
          subst h
          refine ⟨cfg, rfl, rfl, by simp [hw, hN], ?_⟩
          exact NewConnectionConfigMap_keys cfg.Connections
      · simp [hw, hL, hN] at h
    · simp [hw, hL] at h
    · simp [hw, hL] at h

theorem listener_gets_map_of_fresh_snapshot_witness :
    ∃ cfg, allSucceed.LoadConnectionConfig = .returns (some cfg, none) ∧
      [("aws", { Connection := "aws", Config := "regions=*" }),
        ("github", { Connection := "github", Config := "token" })] =
        NewConnectionConfigMap cfg.Connections ∧
      listenerCalls (handleFileWatcherEvent allSucceed startedWatcher initialGlobals []).trace =
        [[("aws", { Connection := "aws", Config := "regions=*" }),
          ("github", { Connection := "github", Config := "token" })]] ∧
      (mapKeys [("aws", ({ Connection := "aws", Config := "regions=*" } : ConnectionConfig)),
        ("github", { Connection := "github", Config := "token" })]).Nodup ∧
      ∀ k, k ∈ mapKeys [("aws", ({ Connection := "aws", Config := "regions=*" } : ConnectionConfig)),
        ("github", { Connection := "github", Config := "token" })] ↔
          ∃ conn ∈ cfg.Connections, conn.Name = k :=
  listener_gets_map_of_fresh_snapshot allSucceed startedWatcher initialGlobals []
    [("aws", { Connection := "aws", Config := "regions=*" }),
      ("github", { Connection := "github", Config := "token" })] (by decide)

/-- C10, as stated, fails: on a non-first batch with all collaborators succeeding, the stages
do not run in the described order; the client is created before the listener is notified and
before the global configuration is updated. -/
theorem described_stage_order_fails :
    startedWatcher.count ≠ 0 ∧
      stages (handleFileWatcherEvent allSucceed startedWatcher initialGlobals []).trace ≠
        describedStageOrder ∧
      calls (handleFileWatcherEvent allSucceed startedWatcher initialGlobals []).trace =
        [.LoadConnectionConfig, .NewLocalClient,
          .onConnectionConfigChanged (NewConnectionConfigMap sampleConfig.Connections),
          .setGlobalConfig sampleConfig, .SetViperDefaults [("cache", "true")],
          .RefreshConnectionAndSearchPaths (some { id := 7 }),
          .ShowWarnings { Error := none, Warnings := ["w1"] }, .Close (some { id := 7 })] := by
  refine ⟨?_, ?_, ?_⟩ <;> decide

/-- C10, amended: in every non-first invocation in which all collaborators succeed, each stage
runs exactly once, in the order load config, create downstream client, notify listener, update
global configuration (slot, then viper defaults), refresh, report warnings, and the client is
closed last; the calls carry the snapshot loaded in this invocation and the client created in
it. -/
theorem stages_run_in_handler_order (c : Collaborators) (w : ConnectionWatcher) (g : Globals)
    (e : List FsEvent) (cfg : SteampipeConfig) (cl : LocalDbClient) (kv : ConfigKV)
    (v : ViperDefaults) (res : RefreshResult)
    (hw : w.count ≠ 0)
    (hl : c.LoadConnectionConfig = .returns (some cfg, none))
    (hn : c.NewLocalClient = .returns (some cl, none))
    (hlis : c.onConnectionConfigChanged (NewConnectionConfigMap cfg.Connections) = .returns ())
    (hk : c.ConfigMap cfg = .returns kv)
    (hv : c.SetViperDefaults kv g.viperDefaults = (v, none))
    (hr : c.RefreshConnectionAndSearchPaths (some cl) = .returns res)
    (he : res.Error = none)
    (hs : c.ShowWarnings res = .returns ())
    (hc : c.Close (some cl) = .returns ()) :
    stages (handleFileWatcherEvent c w g e).trace = handlerStageOrder ∧
      calls (handleFileWatcherEvent c w g e).trace =
        [.LoadConnectionConfig, .NewLocalClient,
          .onConnectionConfigChanged (NewConnectionConfigMap cfg.Connections),
          .setGlobalConfig cfg, .SetViperDefaults kv,
          .RefreshConnectionAndSearchPaths (some cl), .ShowWarnings res, .Close (some cl)] ∧
      (handleFileWatcherEvent c w g e).g = { GlobalConfig := some cfg, viperDefaults := v } ∧
      (handleFileWatcherEvent c w g e).exit = .returned := by
  have hEq : handleFileWatcherEvent c w g e =
      { w := { count := w.count + 1 },
        g := { GlobalConfig := some cfg, viperDefaults := v },
        trace := [.log "[TRACE] ConnectionWatcher handleFileWatcherEvent",
          .LoadConnectionConfig,
          .log "[TRACE] loaded updated config",
          .NewLocalClient,
          .log "[TRACE] loaded updated config",
          .log "[TRACE] calling onConnectionConfigChanged",
          .onConnectionConfigChanged (NewConnectionConfigMap cfg.Connections),
          .log "[TRACE] calling RefreshConnectionAndSearchPaths",
          .setGlobalConfig cfg, .SetViperDefaults kv,
          .RefreshConnectionAndSearchPaths (some cl), .ShowWarnings res, .Close (some cl)],
        exit := .returned } := by
    have h1 : ¬ (w.count + 1 = 1) := mt (GoInt.add_one_eq_one w.count).1 hw
    simp [handleFileWatcherEvent, handlerBody, afterDefer, deferredRecover, St.emit, h1, hl, hn,
      hlis, hk, hv, hr, he, hs, hc]
  rw [hEq]
  refine ⟨?_, ?_, rfl, rfl⟩
  · simp [stages, Event.stage, handlerStageOrder]
  · simp [calls]

theorem stages_run_in_handler_order_witness :
    stages (handleFileWatcherEvent allSucceed startedWatcher initialGlobals []).trace =
        handlerStageOrder ∧
      calls (handleFileWatcherEvent allSucceed startedWatcher initialGlobals []).trace =
        [.LoadConnectionConfig, .NewLocalClient,
          .onConnectionConfigChanged (NewConnectionConfigMap sampleConfig.Connections),
          .setGlobalConfig sampleConfig, .SetViperDefaults [("cache", "true")],
          .RefreshConnectionAndSearchPaths (some { id := 7 }),
          .ShowWarnings { Error := none, Warnings := ["w1"] }, .Close (some { id := 7 })] ∧
      (handleFileWatcherEvent allSucceed startedWatcher initialGlobals []).g =
        { GlobalConfig := some sampleConfig, viperDefaults := [("cache", "true")] } ∧
      (handleFileWatcherEvent allSucceed startedWatcher initialGlobals []).exit = .returned :=
  stages_run_in_handler_order allSucceed startedWatcher initialGlobals [] sampleConfig
    { id := 7 } [("cache", "true")] [("cache", "true")] { Error := none, Warnings := ["w1"] }
    (by decide) rfl rfl rfl rfl rfl rfl rfl rfl rfl

end connectionwatcher
